import Mathlib

/-!
Verification of the ecommerce-shop backend against its specification.

The development shallowly embeds the Go source:
* `model/product_brand.go` — the `ProductBrand` record and its `Validate` method;
* the postgres user store stubs (`PgUserStore.GetAll`, `Update`, `Delete`);
* the HTTP handlers `login`, `createUser`, `logout` (`api/v1/user.go`) and
  `patchProduct`, `createProduct` (product handlers), modelled as functions from
  the results of their collaborator calls to the list of actions they perform on
  the response writer;
* the token issuance / session store / verification flow, whose implementation
  is not part of the sources at hand; it is modelled from the specification
  (section 4 of the spec), as marked on each definition.
-/

set_option autoImplicit false

/-! ## ProductBrand (`model/product_brand.go`) -/

/-- `model.ProductBrand`.  Go `time.Time` values are modelled as `Nat` instants
whose `IsZero` test is equality with `0`; `int64` fields as `Int`. -/
structure ProductBrand where
  id : Int
  productID : Int
  name : String
  slug : String
  type : String
  description : String
  email : String
  websiteURL : String
  createdAt : Nat
  updatedAt : Nat
deriving DecidableEq

/-- The `errs` accumulator built by `ProductBrand.Validate`: one
validation-error entry (modelled by its field label) per failing check, in
source order. -/
def ProductBrand.validationErrs (pb : ProductBrand) : List String :=
  (if pb.id ≠ 0 then ["brand.id"] else []) ++
  (if pb.productID ≠ 0 then ["brand.product_id"] else []) ++
  (if pb.name = "" then ["brand.name"] else []) ++
  (if pb.slug = "" then ["brand.slug"] else []) ++
  (if pb.type = "" then ["brand.type"] else []) ++
  (if pb.description = "" then ["brand.description"] else []) ++
  (if pb.email = "" then ["brand.email"] else []) ++
  (if pb.websiteURL = "" then ["brand.website_url"] else []) ++
  (if pb.createdAt = 0 then ["brand.created_at"] else []) ++
  (if pb.updatedAt = 0 then ["brand.updated_at"] else [])

/-- `ProductBrand.Validate`: returns `none` (Go `nil`) exactly when no check
failed (`errs.IsZero()`); otherwise the accumulated validation errors. -/
def ProductBrand.Validate (pb : ProductBrand) : Option (List String) :=
  if pb.validationErrs.isEmpty then none else some pb.validationErrs

/-- Number of failing validation checks of a `ProductBrand`, one per field. -/
def ProductBrand.failCount (pb : ProductBrand) : Nat :=
  (if pb.id ≠ 0 then 1 else 0) +
  (if pb.productID ≠ 0 then 1 else 0) +
  (if pb.name = "" then 1 else 0) +
  (if pb.slug = "" then 1 else 0) +
  (if pb.type = "" then 1 else 0) +
  (if pb.description = "" then 1 else 0) +
  (if pb.email = "" then 1 else 0) +
  (if pb.websiteURL = "" then 1 else 0) +
  (if pb.createdAt = 0 then 1 else 0) +
  (if pb.updatedAt = 0 then 1 else 0)

/-! ## Postgres user store stubs (`store/postgres` user store) -/

/-- `model.User`, reduced to the identity the store operations mention; the Go
zero value `model.User{}` is `⟨0⟩`. -/
structure User where
  id : Int := 0
deriving DecidableEq

/-- The database state the postgres store operates on: the `public.user` table. -/
structure DbState where
  users : List User
deriving DecidableEq

/-- `PgUserStore.GetAll`: body is `return []*model.User{}, nil` — no query is
issued, the database state is returned unchanged. -/
def PgUserStore.GetAll (db : DbState) : (List User × Option String) × DbState :=
  (([], none), db)

/-- `PgUserStore.Update`: body is `return &model.User{}, nil` — no query is
issued, the database state is returned unchanged. -/
def PgUserStore.Update (db : DbState) (id : Int) (u : User) :
    (User × Option String) × DbState :=
  (({}, none), db)

/-- `PgUserStore.Delete`: body is `return &model.User{}, nil` — no query is
issued, the database state is returned unchanged. -/
def PgUserStore.Delete (db : DbState) (id : Int) :
    (User × Option String) × DbState :=
  (({}, none), db)

/-! ## HTTP handler embeddings (`api/v1/user.go` and the product handlers)

A handler is modelled as a function from the outcomes of its collaborator
calls (JSON decoding, the application-service methods) to the ordered list of
actions it performs on the HTTP response writer.  Opaque payloads (decoded
request bodies, token metadata, products) are modelled as `Nat`. -/

/-- A `*model.AppErr` value: either constructed inside the handler from a
fixed i18n message, or propagated from a collaborator (opaque, as `Nat`). -/
inductive AppErr where
  | handlerConstructed (msg : String)
  | fromApp (code : Nat)
deriving DecidableEq

/-- One call a handler makes on the HTTP response writer. -/
inductive HttpAction where
  | respondError (e : Option AppErr)
  | attachSessionCookies (tokenMeta : Option Nat)
  | deleteSessionCookies
  | respondJSONUser (status : Nat) (u : User)
  | respondJSONProduct (status : Nat) (p : Nat)
  | respondOK
deriving DecidableEq

/-- The `login` handler.  `decodeRes` is the outcome of
`model.UserLoginFromJSON`, `loginApp` of `a.app.Login`, `issueTokens` of
`a.app.IssueTokens` (Go multi-return `(tokenMeta, err)`, so a possibly-nil
metadata pointer paired with a possibly-nil error), `saveAuth` of
`a.app.SaveAuth`.  As in the source, the `IssueTokens` and `SaveAuth` error
branches call `respondError` and then fall through (no `return`), so control
always reaches `AttachSessionCookies` and the 200 response. -/
def login (decodeRes : Except Unit Nat) (loginApp : Nat → Except AppErr User)
    (issueTokens : User → Option Nat × Option AppErr)
    (saveAuth : Int → Option Nat → Option AppErr) : List HttpAction :=
  match decodeRes with
  | .error _ =>
      [.respondError (some (.handlerConstructed "could not decode user json data"))]
  | .ok u =>
    match loginApp u with
    | .error err => [.respondError (some err)]
    | .ok user =>
      let issued := issueTokens user
      let tokenMeta := issued.1
      let issueActs : List HttpAction :=
        match issued.2 with
        | some e => [.respondError (some e)]
        | none => []
      let saveActs : List HttpAction :=
        match saveAuth user.id tokenMeta with
        | some e => [.respondError (some e)]
        | none => []
      issueActs ++ saveActs ++
        [.attachSessionCookies tokenMeta, .respondJSONUser 200 user]

/-- The `createUser` handler: same shape as `login` with `model.UserFromJSON`,
`a.app.CreateUser` and a 201 response; the `IssueTokens` and `SaveAuth` error
branches likewise lack `return`. -/
def createUser (decodeRes : Except Unit Nat)
    (createApp : Nat → Except AppErr User)
    (issueTokens : User → Option Nat × Option AppErr)
    (saveAuth : Int → Option Nat → Option AppErr) : List HttpAction :=
  match decodeRes with
  | .error _ =>
      [.respondError (some (.handlerConstructed "could not decode user json data"))]
  | .ok u =>
    match createApp u with
    | .error err => [.respondError (some err)]
    | .ok user =>
      let issued := issueTokens user
      let tokenMeta := issued.1
      let issueActs : List HttpAction :=
        match issued.2 with
        | some e => [.respondError (some e)]
        | none => []
      let saveActs : List HttpAction :=
        match saveAuth user.id tokenMeta with
        | some e => [.respondError (some e)]
        | none => []
      issueActs ++ saveActs ++
        [.attachSessionCookies tokenMeta, .respondJSONUser 201 user]

/-- The access-token metadata the logout handler needs (`ad.AccessUUID`). -/
structure AccessData where
  accessUUID : Nat
deriving DecidableEq

/-- The `logout` handler.  It first deletes the session cookies, then extracts
the token metadata; on success it calls `a.app.DeleteAuth(ad.AccessUUID)` and
responds with `respondError(w, err)` when `err != nil || deleted == 0` (note:
in the zero-deleted, nil-error case `respondError` receives the nil error),
and `respondOK` otherwise. -/
def logout (extractRes : Except AppErr AccessData)
    (deleteAuth : Nat → Nat × Option AppErr) : List HttpAction :=
  .deleteSessionCookies ::
    match extractRes with
    | .error e => [.respondError (some e)]
    | .ok ad =>
      let res := deleteAuth ad.accessUUID
      if res.2.isSome ∨ res.1 = 0 then [.respondError res.2]
      else [.respondOK]

/-- The `patchProduct` handler.  After a successful URL-param parse and a
successful JSON decode (both into the same Go variable `err`, nil on this
path), it calls `a.app.PatchProduct` into `(uprod, pErr)` but then re-checks
`err` — the stale, nil decode error — instead of `pErr`, exactly as the
source does. -/
def patchProduct (parsePid : Except Unit Int) (decodePatch : Except Unit Nat)
    (appPatchProduct : Int → Nat → Nat × Option AppErr) : List HttpAction :=
  match parsePid with
  | .error _ =>
      [.respondError (some (.handlerConstructed "could not parse URL params"))]
  | .ok pid =>
    match decodePatch with
    | .error _ =>
        [.respondError (some (.handlerConstructed "could not decode product patch data"))]
    | .ok patch =>
      let err : Option Unit := none
      let res := appPatchProduct pid patch
      if err.isSome then [.respondError res.2]
      else [.respondJSONProduct 200 res.1]

/-- A parsed multipart form: `Value` and `File` are Go maps from field name to
a slice of values (file headers modelled by name); indexing a missing key
yields the nil slice `[]`. -/
structure MultipartForm where
  value : List (String × List String)
  file : List (String × List String)
deriving DecidableEq

/-- Go map indexing `m[k]`: the entry's slice, or the nil (empty) slice when
the key is absent. -/
def formGet (m : List (String × List String)) (k : String) : List String :=
  match m.find? (fun p => p.1 = k) with
  | some p => p.2
  | none => []

/-- The tag-id loop of `createProduct`: parse each id, returning the first
parse failure if any. -/
def parseTagIDs (parseTid : String → Except Unit Int) :
    List String → Except Unit (List Int)
  | [] => .ok []
  | t :: ts =>
    match parseTid t with
    | .error e => .error e
    | .ok i =>
      match parseTagIDs parseTid ts with
      | .error e => .error e
      | .ok is => .ok (i :: is)

/-- The `createProduct` handler.  `none` models a panic: the source reads
`mpf.File["image"][0]` and then `mpf.Value["properties"][0]` without checking
the slices are non-empty, so a missing `image` file field or `properties`
value field indexes position 0 of an empty slice. -/
def createProduct (parseFormRes : Option MultipartForm)
    (decodeRes : Except Unit Nat) (parseTid : String → Except Unit Int)
    (appCreateProduct : Nat → String → List String → List Int → String →
      Nat × Option AppErr) : Option (List HttpAction) :=
  match parseFormRes with
  | none =>
      some [.respondError
        (some (.handlerConstructed "could not decode product multipart data"))]
  | some mpf =>
    match decodeRes with
    | .error _ =>
        some [.respondError
          (some (.handlerConstructed "could not decode product multipart data"))]
    | .ok p =>
      let tagids := formGet mpf.value "tags"
      let headers := formGet mpf.file "images"
      match (formGet mpf.file "image").head? with
      | none => none
      | some fh =>
        match (formGet mpf.value "properties").head? with
        | none => none
        | some properties =>
          match parseTagIDs parseTid tagids with
          | .error _ =>
              some [.respondError
                (some (.handlerConstructed "could not decode product multipart data"))]
          | .ok tags =>
            let res := appCreateProduct p fh headers tags properties
            match res.2 with
            | some e => some [.respondError (some e)]
            | none => some [.respondJSONProduct 201 res.1]

/-! ## Token issuance, session store and verification

The implementations of `IssueTokens`, `SaveAuth`, `DeleteAuth`,
`ExtractTokenMetadata` and `RefreshToken` are not among the sources at hand
(only their callers in `api/v1/user.go` are); the definitions below are
modelled from the specification, sections 4.1–4.4, as marked. -/

/-- Modelled from the spec: the claims a signed token encodes — identity,
token identifier (UUID, modelled as `Nat`), and expiry instant. -/
structure TokenClaims where
  identity : Nat
  uuid : Nat
  expiry : Nat
deriving DecidableEq

/-- Modelled from the spec: a signed token; `sig` records which secret signed
it, so the signature check is comparison with the verifier's secret. -/
structure SignedToken where
  claims : TokenClaims
  sig : Nat
deriving DecidableEq

/-- Modelled from the spec (4.1): signing claims with a secret. -/
def sign (secret : Nat) (c : TokenClaims) : SignedToken :=
  ⟨c, secret⟩

/-- Modelled from the spec (data model): a `TokenPair`. -/
structure TokenPair where
  accessToken : SignedToken
  accessUUID : Nat
  accessExpiry : Nat
  refreshToken : SignedToken
  refreshUUID : Nat
  refreshExpiry : Nat
deriving DecidableEq

/-- Secrets and TTLs of the Token Issuer (distinct secrets per token class). -/
structure AuthConfig where
  accessSecret : Nat
  refreshSecret : Nat
  accessTTL : Nat
  refreshTTL : Nat
deriving DecidableEq

/-- Modelled from the spec (4.1 Token Issuer): `IssueTokens(identity)`.
Fresh identifiers are generated from a counter `nextUUID` (standing for the
spec's collision-free random generation); the access token encodes
{identity, accessUUID, now + short TTL}, the refresh token
{identity, refreshUUID, now + long TTL}, each signed with its own secret.
Returns the pair and the advanced counter. -/
def issueTokens (cfg : AuthConfig) (nextUUID now identity : Nat) :
    TokenPair × Nat :=
  let aU := nextUUID
  let rU := nextUUID + 1
  ({ accessToken := sign cfg.accessSecret ⟨identity, aU, now + cfg.accessTTL⟩
     accessUUID := aU
     accessExpiry := now + cfg.accessTTL
     refreshToken := sign cfg.refreshSecret ⟨identity, rU, now + cfg.refreshTTL⟩
     refreshUUID := rU
     refreshExpiry := now + cfg.refreshTTL }, nextUUID + 2)

/-- The Session Store: entries (uuid, identity, expiry), most recent first. -/
abbrev SessionStore := List (Nat × Nat × Nat)

/-- Modelled from the spec (4.2 Save): writes the two entries
accessUUID → identity and refreshUUID → identity, each with its token's
expiry. -/
def saveAuth (identity : Nat) (pair : TokenPair) (st : SessionStore) :
    SessionStore :=
  (pair.accessUUID, identity, pair.accessExpiry) ::
    (pair.refreshUUID, identity, pair.refreshExpiry) :: st

/-- Modelled from the spec (4.2 Delete): removes the entry with the given
token identifier, returning the count deleted (0, not an error, when the
identifier is absent) and the remaining store. -/
def deleteAuthEntry (st : SessionStore) (uuid : Nat) : Nat × SessionStore :=
  let remaining := st.filter (fun e => e.1 != uuid)
  (st.length - remaining.length, remaining)

/-- Modelled from the spec (4.2 Lookup): the identity of a live entry;
NotFound (`none`) if the identifier is absent or its entry has expired. -/
def lookupAuth (st : SessionStore) (now uuid : Nat) : Option Nat :=
  match st.find? (fun e => e.1 == uuid) with
  | some e => if now < e.2.2 then some e.2.1 else none
  | none => none

/-- The client-facing verification failures of the spec (section 7). -/
inductive AuthError where
  | invalidSignature
  | expired
  | revokedOrUnknown
deriving DecidableEq

/-- Modelled from the spec (4.3 Token Verifier): `Extract(rawToken)`.
The expiry check dominates — the spec states that a token whose expiry has
elapsed always fails `Expired`, regardless of signature validity; a
non-expired token whose signature does not match the secret fails
`InvalidSignature`; on success the token identifier must still be live in the
Session Store, else `RevokedOrUnknown`.  Returns (identity, uuid). -/
def extract (secret : Nat) (st : SessionStore) (now : Nat)
    (tok : SignedToken) : Except AuthError (Nat × Nat) :=
  if tok.claims.expiry ≤ now then .error .expired
  else if tok.sig ≠ secret then .error .invalidSignature
  else
    match lookupAuth st now tok.claims.uuid with
    | none => .error .revokedOrUnknown
    | some _ => .ok (tok.claims.identity, tok.claims.uuid)

/-- Modelled from the spec (4.4 Refresh Flow): verify the raw refresh token
against the refresh secret, mint a new pair for the extracted identity,
delete the old refresh UUID's session entry, and save the new pair.  Returns
the new pair, the resulting store state and the advanced UUID counter. -/
def refreshTokens (cfg : AuthConfig) (st : SessionStore) (nextUUID now : Nat)
    (rawRefresh : SignedToken) :
    Except AuthError (TokenPair × SessionStore × Nat) :=
  match extract cfg.refreshSecret st now rawRefresh with
  | .error e => .error e
  | .ok (identity, oldUUID) =>
    let issued := issueTokens cfg nextUUID now identity
    let st1 := (deleteAuthEntry st oldUUID).2
    let st2 := saveAuth identity issued.1 st1
    .ok (issued.1, st2, issued.2)

/-! ## Theorems: C10, C7 -/

/-- A conditional singleton list is empty exactly when its condition fails. -/
theorem ite_singleton_eq_nil {c : Prop} [Decidable c] {s : String} :
    ((if c then [s] else ([] : List String)) = []) ↔ ¬c := by
  split <;> simp_all

/-- The length of a conditional singleton list is its condition's indicator. -/
theorem length_ite_singleton {c : Prop} [Decidable c] {s : String} :
    (if c then [s] else ([] : List String)).length = if c then 1 else 0 := by
  split <;> rfl

theorem validationErrs_eq_nil_iff (pb : ProductBrand) :
    pb.validationErrs = [] ↔
      (pb.id = 0 ∧ pb.productID = 0 ∧ pb.name ≠ "" ∧ pb.slug ≠ "" ∧
       pb.type ≠ "" ∧ pb.description ≠ "" ∧ pb.email ≠ "" ∧
       pb.websiteURL ≠ "" ∧ pb.createdAt ≠ 0 ∧ pb.updatedAt ≠ 0) := by
  unfold ProductBrand.validationErrs
  simp only [List.append_eq_nil, ite_singleton_eq_nil, not_not]
  tauto

theorem validationErrs_length (pb : ProductBrand) :
    pb.validationErrs.length = pb.failCount := by
  unfold ProductBrand.validationErrs ProductBrand.failCount
  simp only [List.length_append, length_ite_singleton]

/-- C10: `ProductBrand.Validate` returns `nil` iff `ID = 0`, `ProductID = 0`,
the six string fields are all non-empty and both timestamps are non-zero;
otherwise it returns a validation error accumulating one entry per failing
field. -/
theorem productBrand_validate_iff (pb : ProductBrand) :
    (pb.Validate = none ↔
      (pb.id = 0 ∧ pb.productID = 0 ∧ pb.name ≠ "" ∧ pb.slug ≠ "" ∧
       pb.type ≠ "" ∧ pb.description ≠ "" ∧ pb.email ≠ "" ∧
       pb.websiteURL ≠ "" ∧ pb.createdAt ≠ 0 ∧ pb.updatedAt ≠ 0)) ∧
    (∀ l, pb.Validate = some l → l.length = pb.failCount) := by
  constructor
  · rw [← validationErrs_eq_nil_iff]
    unfold ProductBrand.Validate
    split
    case isTrue h => simpa [List.isEmpty_iff] using h
    case isFalse h => simp_all [List.isEmpty_iff]
  · intro l hl
    unfold ProductBrand.Validate at hl
    split at hl
    · exact absurd hl (by simp)
    · cases hl
      exact validationErrs_length pb

/-- C10 witness: a fully valid brand validates to `nil`, and an all-invalid
brand accumulates one entry for each of the ten fields. -/
theorem productBrand_validate_iff_witness :
    ProductBrand.Validate ⟨0, 0, "n", "s", "t", "d", "e", "w", 1, 1⟩ = none ∧
    ∃ l, ProductBrand.Validate ⟨3, 4, "", "", "", "", "", "", 0, 0⟩ = some l ∧
      l.length = 10 := by
  refine ⟨(productBrand_validate_iff _).1.mpr (by decide), ?_⟩
  refine ⟨_, rfl, ?_⟩
  have h := (productBrand_validate_iff ⟨3, 4, "", "", "", "", "", "", 0, 0⟩).2 _ rfl
  simpa using h

/-- C7: the three CRUD stubs are empty-success: for every database state and
every argument, `GetAll` yields the empty list and no error, `Update` and
`Delete` yield the zero-value `User` and no error, and all three leave the
database state unchanged. -/
theorem pgUserStore_stubs (db : DbState) (id : Int) (u : User) :
    PgUserStore.GetAll db = (([], none), db) ∧
    PgUserStore.Update db id u = ((⟨0⟩, none), db) ∧
    PgUserStore.Delete db id = ((⟨0⟩, none), db) :=
  ⟨rfl, rfl, rfl⟩

/-! ## Theorems: C1, C2, C8, C9 -/

/-- C1 (code behaviour at the claim's failing input): when decoding and
authentication succeed, token issuance succeeds, and `SaveAuth` returns an
error, both the `login` and the `createUser` handlers write the error response
but then still attach the session cookies and write the success response —
the missing `return` after `respondError` means the save failure is not
treated as fatal. -/
theorem login_createUser_ignore_saveAuth_error (u m c : Nat) (user : User)
    (e : AppErr) :
    login (.ok u) (fun _ => .ok user) (fun _ => (some m, none))
        (fun _ _ => some e) =
      [.respondError (some e), .attachSessionCookies (some m),
       .respondJSONUser 200 user] ∧
    createUser (.ok c) (fun _ => .ok user) (fun _ => (some m, none))
        (fun _ _ => some e) =
      [.respondError (some e), .attachSessionCookies (some m),
       .respondJSONUser 201 user] :=
  ⟨rfl, rfl⟩

/-- C2 counterexample: a logout request whose access token extracts
successfully and whose `DeleteAuth` deletes zero records with no error does
NOT respond success — the handler responds with `respondError` (passing the
nil error), refuting the claim that it still responds success. -/
theorem logout_zero_deleted_counterexample :
    logout (.ok ⟨5⟩) (fun _ => (0, none)) =
      [.deleteSessionCookies, .respondError none] ∧
    HttpAction.respondOK ∉ logout (.ok ⟨5⟩) (fun _ => (0, none)) := by
  constructor
  · rfl
  · decide

/-- C2 amended: for every logout request whose access token is successfully
extracted, when `DeleteAuth` removes zero records and returns no error, the
handler responds with an error response (passing the nil error to
`respondError`), not success. -/
theorem logout_zero_deleted_responds_error (ad : AccessData)
    (deleteAuth : Nat → Nat × Option AppErr)
    (h : deleteAuth ad.accessUUID = (0, none)) :
    logout (.ok ad) deleteAuth =
      [.deleteSessionCookies, .respondError none] := by
  simp [logout, h]

/-- C2 amended, witness at a concrete store. -/
theorem logout_zero_deleted_responds_error_witness :
    logout (.ok ⟨7⟩) (fun _ => (0, none)) =
      [.deleteSessionCookies, .respondError none] :=
  logout_zero_deleted_responds_error ⟨7⟩ (fun _ => (0, none)) rfl

/-- C8: when the URL param and the JSON body decode successfully and
`PatchProduct` returns a product together with a non-nil error, the handler
responds 200 with the returned product — the handler re-checks the stale nil
decode error, so `pErr` is never examined. -/
theorem patchProduct_ignores_patch_error (pid : Int) (patch prod : Nat)
    (e : AppErr) :
    patchProduct (.ok pid) (.ok patch) (fun _ _ => (prod, some e)) =
      [.respondJSONProduct 200 prod] :=
  rfl

/-- C9: well-formed multipart requests (form parse and schema decode succeed)
that omit the `image` file field, or the `properties` value field, drive
`createProduct` into the unguarded index at position 0 of an empty slice — a
panic (`none`), not an error response. -/
theorem createProduct_missing_field_panics :
    createProduct (some ⟨[("properties", ["p"])], []⟩) (.ok 0)
        (fun _ => .ok 0) (fun _ _ _ _ _ => (0, none)) = none ∧
    createProduct (some ⟨[], [("image", ["f.jpg"])]⟩) (.ok 0)
        (fun _ => .ok 0) (fun _ _ _ _ _ => (0, none)) = none :=
  ⟨rfl, rfl⟩

/-! ## Theorems: C3, C4, C5, C6 -/

/-- Deleting an identifier really removes it: a subsequent search of the
filtered store for that identifier finds nothing. -/
theorem find?_filter_ne (st : SessionStore) (u : Nat) :
    (st.filter (fun e => e.1 != u)).find? (fun e => e.1 == u) = none := by
  induction st with
  | nil => rfl
  | cons a l ih =>
    by_cases h : a.1 = u <;> simp [List.filter_cons, h, List.find?_cons, ih]

/-- C3: round-trip of issuance and verification — for every identity, issuing
a token pair, saving the session record, and extracting the resulting access
token at issuance time yields that identity (and the access UUID). -/
theorem issue_then_extract_roundtrip (cfg : AuthConfig) (st : SessionStore)
    (n now identity : Nat) (h : 0 < cfg.accessTTL) :
    extract cfg.accessSecret
        (saveAuth identity (issueTokens cfg n now identity).1 st) now
        (issueTokens cfg n now identity).1.accessToken =
      .ok (identity, (issueTokens cfg n now identity).1.accessUUID) := by
  simp only [issueTokens, sign, saveAuth, extract, lookupAuth, List.find?_cons]
  rw [if_neg (by omega)]
  simp [h]

/-- C3 witness: identity 42, secrets 1 and 2, TTLs 900 and 604800, issuing at
time 1000 into the empty store. -/
theorem issue_then_extract_roundtrip_witness :
    extract 1 (saveAuth 42 (issueTokens ⟨1, 2, 900, 604800⟩ 0 1000 42).1 []) 1000
        (issueTokens ⟨1, 2, 900, 604800⟩ 0 1000 42).1.accessToken =
      .ok (42, (issueTokens ⟨1, 2, 900, 604800⟩ 0 1000 42).1.accessUUID) :=
  issue_then_extract_roundtrip ⟨1, 2, 900, 604800⟩ [] 0 1000 42 (by decide)

/-- C5: a token whose expiry has elapsed at verification time fails `Expired`,
for every secret, store state and token — in particular regardless of whether
the token's signature matches the secret. -/
theorem extract_expired_dominates (secret : Nat) (st : SessionStore)
    (now : Nat) (tok : SignedToken) (h : tok.claims.expiry ≤ now) :
    extract secret st now tok = .error .expired := by
  simp [extract, h]

/-- C5 witness: a token expired at time 50, verified at time 100 with a
mismatched signature (signed with 9, verified against 1), fails `Expired`. -/
theorem extract_expired_dominates_witness :
    extract 1 [] 100 ⟨⟨42, 7, 50⟩, 9⟩ = .error .expired :=
  extract_expired_dominates 1 [] 100 ⟨⟨42, 7, 50⟩, 9⟩ (by decide)

/-- Looking up an identifier right after deleting it finds nothing. -/
theorem lookupAuth_deleteAuthEntry (st : SessionStore) (now u : Nat) :
    lookupAuth (deleteAuthEntry st u).2 now u = none := by
  simp only [deleteAuthEntry, lookupAuth, find?_filter_ne]

/-- C6: after issuing a pair, saving it, and deleting the access UUID's
session entry, extracting the same access token at any time before its expiry
fails `RevokedOrUnknown` — even though the signature matches the access
secret and the expiry check passes. -/
theorem delete_then_extract_revoked (cfg : AuthConfig) (st : SessionStore)
    (n now vt identity : Nat)
    (hv : vt < (issueTokens cfg n now identity).1.accessExpiry) :
    (issueTokens cfg n now identity).1.accessToken.sig = cfg.accessSecret ∧
    ¬((issueTokens cfg n now identity).1.accessToken.claims.expiry ≤ vt) ∧
    extract cfg.accessSecret
        (deleteAuthEntry
          (saveAuth identity (issueTokens cfg n now identity).1 st)
          (issueTokens cfg n now identity).1.accessUUID).2 vt
        (issueTokens cfg n now identity).1.accessToken =
      .error .revokedOrUnknown := by
  simp only [issueTokens, sign] at hv
  refine ⟨rfl, ?_, ?_⟩
  · simp only [issueTokens, sign]
    omega
  · have hlk : lookupAuth
        (deleteAuthEntry
          (saveAuth identity (issueTokens cfg n now identity).1 st)
          (issueTokens cfg n now identity).1.accessUUID).2 vt
        (issueTokens cfg n now identity).1.accessToken.claims.uuid = none :=
      lookupAuth_deleteAuthEntry _ _ _
    unfold extract
    rw [if_neg (by simp only [issueTokens, sign]; omega)]
    rw [if_neg (by simp [issueTokens, sign])]
    rw [hlk]

/-- C6 witness: identity 42, secrets 1 and 2, TTLs 900 and 604800, issued at
time 1000, verified at time 1500 after deleting the access UUID. -/
theorem delete_then_extract_revoked_witness :
    1500 < (issueTokens ⟨1, 2, 900, 604800⟩ 0 1000 42).1.accessExpiry ∧
    extract 1
        (deleteAuthEntry
          (saveAuth 42 (issueTokens ⟨1, 2, 900, 604800⟩ 0 1000 42).1 [])
          (issueTokens ⟨1, 2, 900, 604800⟩ 0 1000 42).1.accessUUID).2 1500
        (issueTokens ⟨1, 2, 900, 604800⟩ 0 1000 42).1.accessToken =
      .error .revokedOrUnknown :=
  ⟨by decide,
   (delete_then_extract_revoked ⟨1, 2, 900, 604800⟩ [] 0 1000 1500 42
     (by decide)).2.2⟩

/-- C4: a successful refresh invalidates the old refresh UUID — if a first
`Refresh` call on a raw refresh token succeeds (the token's UUID predating
the issuer's counter, as generated identifiers are fresh), then a second
`Refresh` call with the same raw refresh token, at any later verification
time, fails. -/
theorem refresh_invalidates_old_refresh (cfg : AuthConfig) (st : SessionStore)
    (n now now2 : Nat) (tok : SignedToken) (pair : TokenPair)
    (st2 : SessionStore) (n2 : Nat) (hfresh : tok.claims.uuid < n)
    (h1 : refreshTokens cfg st n now tok = .ok (pair, st2, n2)) :
    ∃ e, refreshTokens cfg st2 n2 now2 tok = .error e := by
  unfold refreshTokens at h1 ⊢
  cases hex : extract cfg.refreshSecret st now tok with
  | error e => rw [hex] at h1; cases h1
  | ok p =>
    rw [hex] at h1
    obtain ⟨i, u⟩ := p
    simp only [Except.ok.injEq, Prod.mk.injEq] at h1
    obtain ⟨-, hst2, -⟩ := h1
    have hok : extract cfg.refreshSecret st now tok = .ok (i, u) := hex
    unfold extract at hok
    by_cases hexp : tok.claims.expiry ≤ now
    · rw [if_pos hexp] at hok; cases hok
    · rw [if_neg hexp] at hok
      by_cases hsig : tok.sig = cfg.refreshSecret
      · by_cases hexp2 : tok.claims.expiry ≤ now2
        · refine ⟨.expired, ?_⟩
          rw [show extract cfg.refreshSecret st2 now2 tok = .error .expired
            from by unfold extract; rw [if_pos hexp2]]
        · have hu : u = tok.claims.uuid := by
            rw [if_neg (by simpa using hsig)] at hok
            cases hlk : lookupAuth st now tok.claims.uuid with
            | none => rw [hlk] at hok; cases hok
            | some v =>
              rw [hlk] at hok
              cases hok
              rfl
          refine ⟨.revokedOrUnknown, ?_⟩
          have hlook : lookupAuth st2 now2 tok.claims.uuid = none := by
            subst hst2 hu
            simp only [saveAuth, issueTokens, deleteAuthEntry, lookupAuth,
              List.find?_cons]
            have hb1 : ((n : Nat) == tok.claims.uuid) = false := by
              simp; omega
            have hb2 : ((n + 1 : Nat) == tok.claims.uuid) = false := by
              simp; omega
            simp only [hb1, hb2, cond_false]
            rw [find?_filter_ne]
          rw [show extract cfg.refreshSecret st2 now2 tok =
              .error .revokedOrUnknown from by
            unfold extract
            rw [if_neg hexp2, if_neg (by simpa using hsig), hlook]]
      · rw [if_pos (by simpa using hsig)] at hok; cases hok

/-- C4 witness: issue a pair for identity 42 at time 1000, save it, refresh
successfully at time 2000, then the second refresh with the same raw refresh
token at time 3000 fails. -/
theorem refresh_invalidates_old_refresh_witness :
    (issueTokens ⟨1, 2, 900, 604800⟩ 0 1000 42).1.refreshToken.claims.uuid < 2 ∧
    ∃ pair st2 n2,
      refreshTokens ⟨1, 2, 900, 604800⟩
          (saveAuth 42 (issueTokens ⟨1, 2, 900, 604800⟩ 0 1000 42).1 []) 2 2000
          (issueTokens ⟨1, 2, 900, 604800⟩ 0 1000 42).1.refreshToken =
        .ok (pair, st2, n2) ∧
      ∃ e, refreshTokens ⟨1, 2, 900, 604800⟩ st2 n2 3000
          (issueTokens ⟨1, 2, 900, 604800⟩ 0 1000 42).1.refreshToken =
        .error e := by
  refine ⟨by decide, _, _, _, rfl, ?_⟩
  exact refresh_invalidates_old_refresh ⟨1, 2, 900, 604800⟩
    (saveAuth 42 (issueTokens ⟨1, 2, 900, 604800⟩ 0 1000 42).1 []) 2 2000 3000
    (issueTokens ⟨1, 2, 900, 604800⟩ 0 1000 42).1.refreshToken _ _ _
    (by decide) rfl
